import Mathlib

/-!
Verification development for the AI Storyboard Pro repository.

The repository is a browser storyboard authoring tool.  Its state lives in a
single React component (the unnamed App source file): a global `style` string,
a `story` string, a `casting` list of characters and a `scenes` list.  The
event handlers of that component (handleAddCharacter, handleRemoveCharacter,
handleBatchAddScenes, handleGenerateImage, handleGenerateAllImages,
handleGeneratePromptForScene, toggleCharacterInScene, handleImport,
handleExport) are embedded below as pure state transformers; the results of
awaited external calls (the Gemini service, FileReader, JSON.parse) are passed
in as explicit oracle arguments.  The service wrappers of
src/services/geminiService.ts are embedded as functions from a credential and
an oracle response to an `Except` value.
-/

/-- `Character` from src/types.ts.  `referenceImage` is optional there
(`referenceImage?: string`), hence `Option String` here. -/
structure Character where
  id : String
  name : String
  prompt : String
  referenceImage : Option String
deriving DecidableEq, Repr

/-- `Scene` from src/types.ts.  `selectedCharacterIds?`, `imageUrl?` and
`isGeneratingImage?` are optional fields.  `sceneNumber` is a JS number; the
program only ever stores integers in it. -/
structure Scene where
  sceneNumber : Int
  textExcerpt : String
  characters : String
  selectedCharacterIds : Option (List String)
  visualPrompt : String
  imageUrl : Option String
  isGeneratingImage : Option Bool
deriving DecidableEq, Repr

/-- The four pieces of project state held by the App component with useState:
`style`, `story`, `casting`, `scenes`.  (The transient `batchScenesText` and
`isGeneratingStoryboard`/`error` UI fields do not belong to the project and
are modelled as handler arguments where relevant.) -/
structure ProjectState where
  style : String
  story : String
  casting : List Character
  scenes : List Scene
deriving DecidableEq, Repr

/-- `newScenes[index] = { ...newScenes[index], ... }` on a copied array:
replace the element at one index by a function of itself, leaving every other
element alone.  Out-of-range indices change nothing. -/
def modifyAt {α : Type} (i : Nat) (f : α → α) (l : List α) : List α :=
  match l, i with
  | [], _ => []
  | x :: xs, 0 => f x :: xs
  | x :: xs, n + 1 => x :: modifyAt n f xs

@[simp] theorem modifyAt_nil {α : Type} (i : Nat) (f : α → α) :
    modifyAt i f ([] : List α) = [] := by cases i <;> rfl

@[simp] theorem modifyAt_cons_zero {α : Type} (f : α → α) (x : α)
    (xs : List α) : modifyAt 0 f (x :: xs) = f x :: xs := rfl

@[simp] theorem modifyAt_cons_succ {α : Type} (n : Nat) (f : α → α) (x : α)
    (xs : List α) : modifyAt (n + 1) f (x :: xs) = x :: modifyAt n f xs := rfl

theorem length_modifyAt {α : Type} (i : Nat) (f : α → α) (l : List α) :
    (modifyAt i f l).length = l.length := by
  induction l generalizing i with
  | nil => simp
  | cons x xs ih =>
    cases i with
    | zero => simp
    | succ n => simp [ih]

theorem getElem?_modifyAt_self {α : Type} (i : Nat) (f : α → α) (l : List α) :
    (modifyAt i f l)[i]? = (l[i]?).map f := by
  induction l generalizing i with
  | nil => simp
  | cons x xs ih =>
    cases i with
    | zero => simp
    | succ n => simpa using ih n

theorem getElem?_modifyAt_ne {α : Type} {i j : Nat} (f : α → α) (l : List α)
    (h : j ≠ i) : (modifyAt i f l)[j]? = l[j]? := by
  induction l generalizing i j with
  | nil => simp
  | cons x xs ih =>
    cases i with
    | zero =>
      cases j with
      | zero => exact absurd rfl h
      | succ m => simp
    | succ n =>
      cases j with
      | zero => simp
      | succ m => simpa using ih (fun hmn => h (congrArg Nat.succ hmn))

theorem mem_modifyAt {α : Type} {a : α} {f : α → α} {l : List α} :
    ∀ {i : Nat}, a ∈ modifyAt i f l → a ∈ l ∨ ∃ b ∈ l, a = f b := by
  induction l with
  | nil => intro i h; simp at h
  | cons x xs ih =>
    intro i h
    cases i with
    | zero =>
      rcases List.mem_cons.mp h with h | h
      · exact Or.inr ⟨x, List.mem_cons_self x xs, h⟩
      · exact Or.inl (List.mem_cons_of_mem x h)
    | succ n =>
      rcases List.mem_cons.mp h with h | h
      · exact Or.inl (h ▸ List.mem_cons_self x xs)
      · rcases ih h with h' | ⟨b, hb, hab⟩
        · exact Or.inl (List.mem_cons_of_mem x h')
        · exact Or.inr ⟨b, List.mem_cons_of_mem x hb, hab⟩

/-- `handleGenerateImage(index)` from the App component.  It marks the scene
as generating, awaits `generateImageForScene`, and on success stores the
returned image url and clears the flag; on failure (catch) it only clears the
flag.  The awaited result is the `outcome` oracle: `some url` for success,
`none` for a thrown error.  The `if (!scene) return` guard makes the handler
a no-op for an out-of-range index. -/
def handleGenerateImage (outcome : Option String) (index : Nat)
    (st : ProjectState) : ProjectState :=
  if index < st.scenes.length then
    let marked := modifyAt index (fun s => { s with isGeneratingImage := some true }) st.scenes
    match outcome with
    | some url =>
        let done := modifyAt index (fun s => { s with imageUrl := some url, isGeneratingImage := some false }) marked
        { st with scenes := done }
    | none =>
        let done := modifyAt index (fun s => { s with isGeneratingImage := some false }) marked
        { st with scenes := done }
  else st

/-- `handleGeneratePromptForScene(index)` from the App component: awaits
`generatePromptForScene` and on success stores the returned prompt into the
scene; the catch branch only alerts, changing no state. -/
def handleGeneratePromptForScene (outcome : Option String) (index : Nat)
    (st : ProjectState) : ProjectState :=
  if index < st.scenes.length then
    match outcome with
    | some p =>
        let done := modifyAt index (fun s => { s with visualPrompt := p }) st.scenes
        { st with scenes := done }
    | none => st
  else st

theorem handleGenerateImage_style (outcome : Option String) (index : Nat)
    (st : ProjectState) :
    (handleGenerateImage outcome index st).style = st.style := by
  unfold handleGenerateImage
  split <;> cases outcome <;> rfl

theorem handleGenerateImage_story (outcome : Option String) (index : Nat)
    (st : ProjectState) :
    (handleGenerateImage outcome index st).story = st.story := by
  unfold handleGenerateImage
  split <;> cases outcome <;> rfl

theorem handleGenerateImage_casting (outcome : Option String) (index : Nat)
    (st : ProjectState) :
    (handleGenerateImage outcome index st).casting = st.casting := by
  unfold handleGenerateImage
  split <;> cases outcome <;> rfl

theorem handleGenerateImage_length (outcome : Option String) (index : Nat)
    (st : ProjectState) :
    (handleGenerateImage outcome index st).scenes.length
      = st.scenes.length := by
  unfold handleGenerateImage
  split <;> cases outcome <;> simp [length_modifyAt]

theorem handleGenerateImage_get?_ne (outcome : Option String) (index : Nat)
    (st : ProjectState) {j : Nat} (h : j ≠ index) :
    (handleGenerateImage outcome index st).scenes[j]? = st.scenes[j]? := by
  unfold handleGenerateImage
  split <;> cases outcome <;> simp [getElem?_modifyAt_ne _ _ h]

theorem handleGenerateImage_get?_self (outcome : Option String) (index : Nat)
    (st : ProjectState) (h : index < st.scenes.length) :
    (handleGenerateImage outcome index st).scenes[index]?
      = (st.scenes[index]?).map (fun s =>
          match outcome with
          | some url => { s with imageUrl := some url, isGeneratingImage := some false }
          | none => { s with isGeneratingImage := some false }) := by
  unfold handleGenerateImage
  simp only [if_pos h]
  cases outcome <;> simp only [getElem?_modifyAt_self] <;>
    cases st.scenes[index]? <;> rfl

theorem handleGeneratePromptForScene_style (outcome : Option String)
    (index : Nat) (st : ProjectState) :
    (handleGeneratePromptForScene outcome index st).style = st.style := by
  unfold handleGeneratePromptForScene
  split <;> cases outcome <;> rfl

theorem handleGeneratePromptForScene_story (outcome : Option String)
    (index : Nat) (st : ProjectState) :
    (handleGeneratePromptForScene outcome index st).story = st.story := by
  unfold handleGeneratePromptForScene
  split <;> cases outcome <;> rfl

theorem handleGeneratePromptForScene_casting (outcome : Option String)
    (index : Nat) (st : ProjectState) :
    (handleGeneratePromptForScene outcome index st).casting = st.casting := by
  unfold handleGeneratePromptForScene
  split <;> cases outcome <;> rfl

theorem handleGeneratePromptForScene_length (outcome : Option String)
    (index : Nat) (st : ProjectState) :
    (handleGeneratePromptForScene outcome index st).scenes.length
      = st.scenes.length := by
  unfold handleGeneratePromptForScene
  split <;> cases outcome <;> simp [length_modifyAt]

theorem handleGeneratePromptForScene_get?_ne (outcome : Option String)
    (index : Nat) (st : ProjectState) {j : Nat} (h : j ≠ index) :
    (handleGeneratePromptForScene outcome index st).scenes[j]?
      = st.scenes[j]? := by
  unfold handleGeneratePromptForScene
  split <;> cases outcome <;> simp [getElem?_modifyAt_ne _ _ h]

theorem handleGeneratePromptForScene_get?_self (outcome : Option String)
    (index : Nat) (st : ProjectState) (h : index < st.scenes.length) :
    (handleGeneratePromptForScene outcome index st).scenes[index]?
      = (st.scenes[index]?).map (fun s =>
          match outcome with
          | some p => { s with visualPrompt := p }
          | none => s) := by
  unfold handleGeneratePromptForScene
  simp only [if_pos h]
  cases outcome <;> simp only [getElem?_modifyAt_self] <;>
    cases st.scenes[index]? <;> rfl

/-- Claim C2: if single-scene image generation fails, the scene keeps its
previous imageUrl (whether or not one existed) and its isGeneratingImage flag
is false afterwards; the flag is also cleared on the success path. -/
theorem c2_failed_image_generation_preserves_prior_image (st : ProjectState)
    (index : Nat) (h : index < st.scenes.length) (url : String) :
    ((handleGenerateImage none index st).scenes[index]?).map Scene.imageUrl
        = (st.scenes[index]?).map Scene.imageUrl
    ∧ ((handleGenerateImage none index st).scenes[index]?).map Scene.isGeneratingImage
        = some (some false)
    ∧ ((handleGenerateImage (some url) index st).scenes[index]?).map Scene.isGeneratingImage
        = some (some false) := by
  have hs : st.scenes[index]? = some st.scenes[index] := List.getElem?_eq_getElem h
  refine ⟨?_, ?_, ?_⟩ <;>
    (rw [handleGenerateImage_get?_self _ _ _ h, hs]; rfl)

/-- Concrete instance of claim C2: one scene with a prior image, a failed
generation keeps the old image and clears the flag. -/
def c2State : ProjectState :=
  { style := "dark fantasy ink illustration como Junji Ito"
    story := ""
    casting := []
    scenes := [{ sceneNumber := 1, textExcerpt := "t", characters := "",
                 selectedCharacterIds := some [], visualPrompt := "p",
                 imageUrl := some "data:image/png;base64,old",
                 isGeneratingImage := none }] }

theorem c2_failed_image_generation_preserves_prior_image_witness :
    0 < c2State.scenes.length
    ∧ (((handleGenerateImage none 0 c2State).scenes[0]?).map Scene.imageUrl
          = (c2State.scenes[0]?).map Scene.imageUrl
        ∧ ((handleGenerateImage none 0 c2State).scenes[0]?).map Scene.isGeneratingImage
          = some (some false)
        ∧ ((handleGenerateImage (some "data:image/png;base64,new") 0 c2State).scenes[0]?).map Scene.isGeneratingImage
          = some (some false)) :=
  ⟨by decide,
   c2_failed_image_generation_preserves_prior_image c2State 0 (by decide)
     "data:image/png;base64,new"⟩

/-- Claim C10: single-scene prompt generation and single-scene image
generation for the scene at a given index change at most that one scene (its
visualPrompt, or its imageUrl and isGeneratingImage); all other scenes and
the style, story and cast are unchanged on both the success and the failure
path, and an index with no scene causes no state change at all. -/
theorem c10_single_scene_frame_effect (outcome : Option String) (index : Nat)
    (st : ProjectState) :
    ((handleGenerateImage outcome index st).style = st.style
      ∧ (handleGenerateImage outcome index st).story = st.story
      ∧ (handleGenerateImage outcome index st).casting = st.casting
      ∧ (handleGenerateImage outcome index st).scenes.length = st.scenes.length
      ∧ (∀ j : Nat, j ≠ index →
          (handleGenerateImage outcome index st).scenes[j]? = st.scenes[j]?)
      ∧ (∀ s s' : Scene, st.scenes[index]? = some s →
          (handleGenerateImage outcome index st).scenes[index]? = some s' →
          s'.sceneNumber = s.sceneNumber ∧ s'.textExcerpt = s.textExcerpt
            ∧ s'.characters = s.characters
            ∧ s'.selectedCharacterIds = s.selectedCharacterIds
            ∧ s'.visualPrompt = s.visualPrompt)
      ∧ (st.scenes.length ≤ index → handleGenerateImage outcome index st = st))
    ∧ ((handleGeneratePromptForScene outcome index st).style = st.style
      ∧ (handleGeneratePromptForScene outcome index st).story = st.story
      ∧ (handleGeneratePromptForScene outcome index st).casting = st.casting
      ∧ (handleGeneratePromptForScene outcome index st).scenes.length = st.scenes.length
      ∧ (∀ j : Nat, j ≠ index →
          (handleGeneratePromptForScene outcome index st).scenes[j]? = st.scenes[j]?)
      ∧ (∀ s s' : Scene, st.scenes[index]? = some s →
          (handleGeneratePromptForScene outcome index st).scenes[index]? = some s' →
          s'.sceneNumber = s.sceneNumber ∧ s'.textExcerpt = s.textExcerpt
            ∧ s'.characters = s.characters
            ∧ s'.selectedCharacterIds = s.selectedCharacterIds
            ∧ s'.imageUrl = s.imageUrl
            ∧ s'.isGeneratingImage = s.isGeneratingImage)
      ∧ (outcome = none → handleGeneratePromptForScene outcome index st = st)
      ∧ (st.scenes.length ≤ index →
          handleGeneratePromptForScene outcome index st = st)) := by
  constructor
  · refine ⟨handleGenerateImage_style _ _ _, handleGenerateImage_story _ _ _,
      handleGenerateImage_casting _ _ _, handleGenerateImage_length _ _ _,
      fun j hj => handleGenerateImage_get?_ne _ _ _ hj, ?_, ?_⟩
    · intro s s' hs hs'
      by_cases h : index < st.scenes.length
      · rw [handleGenerateImage_get?_self _ _ _ h, hs] at hs'
        cases outcome <;> simp only [Option.map_some'] at hs' <;>
          injection hs' with hs' <;> subst hs' <;>
          exact ⟨rfl, rfl, rfl, rfl, rfl⟩
      · rw [List.getElem?_eq_none (Nat.le_of_not_lt h)] at hs
        exact absurd hs (by simp)
    · intro h
      unfold handleGenerateImage
      rw [if_neg (Nat.not_lt.mpr h)]
  · refine ⟨handleGeneratePromptForScene_style _ _ _,
      handleGeneratePromptForScene_story _ _ _,
      handleGeneratePromptForScene_casting _ _ _,
      handleGeneratePromptForScene_length _ _ _,
      fun j hj => handleGeneratePromptForScene_get?_ne _ _ _ hj, ?_, ?_, ?_⟩
    · intro s s' hs hs'
      by_cases h : index < st.scenes.length
      · rw [handleGeneratePromptForScene_get?_self _ _ _ h, hs] at hs'
        cases outcome <;> simp only [Option.map_some'] at hs' <;>
          injection hs' with hs' <;> subst hs' <;>
          exact ⟨rfl, rfl, rfl, rfl, rfl, rfl⟩
      · rw [List.getElem?_eq_none (Nat.le_of_not_lt h)] at hs
        exact absurd hs (by simp)
    · intro ho
      subst ho
      unfold handleGeneratePromptForScene
      split <;> rfl
    · intro h
      unfold handleGeneratePromptForScene
      rw [if_neg (Nat.not_lt.mpr h)]

/-- Concrete two-scene state exercising claim C10. -/
def c10State : ProjectState :=
  { style := "s", story := "y"
    casting := [{ id := "a", name := "A", prompt := "ap", referenceImage := none }]
    scenes := [{ sceneNumber := 1, textExcerpt := "e0", characters := "",
                 selectedCharacterIds := some ["a"], visualPrompt := "p0",
                 imageUrl := none, isGeneratingImage := none },
               { sceneNumber := 2, textExcerpt := "e1", characters := "",
                 selectedCharacterIds := some [], visualPrompt := "p1",
                 imageUrl := some "img", isGeneratingImage := none }] }

/-- The first scene of `c10State` before the generation call. -/
def c10SceneBefore : Scene :=
  { sceneNumber := 1, textExcerpt := "e0", characters := "",
    selectedCharacterIds := some ["a"], visualPrompt := "p0",
    imageUrl := none, isGeneratingImage := none }

/-- The first scene of `c10State` after a successful generation call. -/
def c10SceneAfter : Scene :=
  { sceneNumber := 1, textExcerpt := "e0", characters := "",
    selectedCharacterIds := some ["a"], visualPrompt := "p0",
    imageUrl := some "u", isGeneratingImage := some false }

theorem c10_single_scene_frame_effect_witness :
    (handleGenerateImage (some "u") 0 c10State).casting = c10State.casting
    ∧ (handleGenerateImage (some "u") 0 c10State).scenes[1]? = c10State.scenes[1]?
    ∧ c10SceneAfter.visualPrompt = c10SceneBefore.visualPrompt
    ∧ handleGeneratePromptForScene none 0 c10State = c10State := by
  obtain ⟨⟨_, _, a3, _, a5, a6, _⟩, _⟩ :=
    c10_single_scene_frame_effect (some "u") 0 c10State
  obtain ⟨_, ⟨_, _, _, _, _, _, b7, _⟩⟩ :=
    c10_single_scene_frame_effect none 0 c10State
  exact ⟨a3, a5 1 (by decide), (a6 c10SceneBefore c10SceneAfter rfl rfl).2.2.2.2, b7 rfl⟩

/-- JS truthiness of an optional string field: `undefined` and the empty
string are falsy, every other string is truthy. -/
def truthyOptStr (o : Option String) : Bool :=
  match o with
  | none => false
  | some s => decide (s ≠ "")

/-- JS truthiness of an optional boolean field: `undefined` and `false` are
falsy, `true` is truthy. -/
def truthyOptBool (o : Option Bool) : Bool :=
  match o with
  | none => false
  | some b => b

/-- The eligibility test of `handleGenerateAllImages`:
`!scenes[i].imageUrl && !scenes[i].isGeneratingImage && scenes[i].visualPrompt`
with JS truthiness on each field. -/
def sceneEligible (s : Scene) : Bool :=
  !truthyOptStr s.imageUrl && !truthyOptBool s.isGeneratingImage
    && decide (s.visualPrompt ≠ "")

theorem sceneEligible_iff (s : Scene) :
    sceneEligible s = true ↔
      ((s.imageUrl = none ∨ s.imageUrl = some "")
        ∧ s.isGeneratingImage ≠ some true ∧ s.visualPrompt ≠ "") := by
  obtain ⟨n, t, c, sel, v, img, flag⟩ := s
  rcases img with _ | a <;> rcases flag with _ | b <;>
    simp [sceneEligible, truthyOptStr, truthyOptBool] <;>
    tauto

/-- The loop body of `handleGenerateAllImages`: walk the index list in order;
at every index whose snapshot scene passes the eligibility test, run
`handleGenerateImage` on the current state (the 1.5 s pacing delay between
calls has no effect on state and is not modelled).  The second component
records, in order, the indices on which `handleGenerateImage` was invoked.
The `snapshot` argument is the `scenes` binding captured by the handler
closure, which the loop condition reads throughout. -/
def goImagesLoop (snapshot : List Scene) (outcomes : Nat → Option String) :
    List Nat → ProjectState → ProjectState × List Nat
  | [], st => (st, [])
  | i :: rest, st =>
    match snapshot[i]? with
    | some s =>
      if sceneEligible s then
        let next := goImagesLoop snapshot outcomes rest (handleGenerateImage (outcomes i) i st)
        (next.1, i :: next.2)
      else goImagesLoop snapshot outcomes rest st
    | none => goImagesLoop snapshot outcomes rest st

/-- `handleGenerateAllImages` from the App component:
`for (let i = 0; i < scenes.length; i++) if (eligible) await handleGenerateImage(i)`. -/
def handleGenerateAllImages (outcomes : Nat → Option String)
    (st : ProjectState) : ProjectState × List Nat :=
  goImagesLoop st.scenes outcomes (List.range st.scenes.length) st

theorem goImagesLoop_snd (snapshot : List Scene)
    (outcomes : Nat → Option String) :
    ∀ (idxs : List Nat) (st : ProjectState),
      (goImagesLoop snapshot outcomes idxs st).2
        = idxs.filter (fun i => ((snapshot[i]?).map sceneEligible).getD false) := by
  intro idxs
  induction idxs with
  | nil => intro st; rfl
  | cons i rest ih =>
    intro st
    cases h : snapshot[i]? with
    | none => simp [goImagesLoop, h, List.filter_cons, ih]
    | some s =>
      by_cases he : sceneEligible s = true <;>
        simp [goImagesLoop, h, he, List.filter_cons, ih]

theorem goImagesLoop_fst_meta (snapshot : List Scene)
    (outcomes : Nat → Option String) :
    ∀ (idxs : List Nat) (st : ProjectState),
      (goImagesLoop snapshot outcomes idxs st).1.style = st.style
      ∧ (goImagesLoop snapshot outcomes idxs st).1.story = st.story
      ∧ (goImagesLoop snapshot outcomes idxs st).1.casting = st.casting := by
  intro idxs
  induction idxs with
  | nil => intro st; exact ⟨rfl, rfl, rfl⟩
  | cons i rest ih =>
    intro st
    cases h : snapshot[i]? with
    | none => simpa [goImagesLoop, h] using ih st
    | some s =>
      by_cases he : sceneEligible s = true
      · have := ih (handleGenerateImage (outcomes i) i st)
        simp only [goImagesLoop, h, if_pos he]
        refine ⟨?_, ?_, ?_⟩
        · rw [this.1, handleGenerateImage_style]
        · rw [this.2.1, handleGenerateImage_story]
        · rw [this.2.2, handleGenerateImage_casting]
      · simpa [goImagesLoop, h, he] using ih st

theorem goImagesLoop_fst_get? (snapshot : List Scene)
    (outcomes : Nat → Option String) (j : Nat) :
    ∀ (idxs : List Nat) (st : ProjectState),
      (∀ i ∈ idxs, ∀ s : Scene, snapshot[i]? = some s →
        sceneEligible s = true → i ≠ j) →
      (goImagesLoop snapshot outcomes idxs st).1.scenes[j]? = st.scenes[j]? := by
  intro idxs
  induction idxs with
  | nil => intro st _; rfl
  | cons i rest ih =>
    intro st hno
    have hrest : ∀ i' ∈ rest, ∀ s : Scene, snapshot[i']? = some s →
        sceneEligible s = true → i' ≠ j :=
      fun i' hi' => hno i' (List.mem_cons_of_mem _ hi')
    cases h : snapshot[i]? with
    | none => simpa [goImagesLoop, h] using ih st hrest
    | some s =>
      by_cases he : sceneEligible s = true
      · have hij : i ≠ j := hno i (List.mem_cons_self _ _) s h he
        simp only [goImagesLoop, h, if_pos he]
        rw [ih _ hrest]
        exact handleGenerateImage_get?_ne _ _ _ (Ne.symm hij)
      · simpa [goImagesLoop, h, he] using ih st hrest

/-- Claim C6: GenerateAllImages walks the scene list in order and invokes
single-scene image generation exactly for the scenes that have no image yet,
are not currently generating, and have a non-empty visual prompt; all other
scenes (existing image, in-flight generation, or empty prompt) are left
untouched, as are style, story and cast. -/
theorem c6_generate_all_images_invokes_exactly_eligible
    (outcomes : Nat → Option String) (st : ProjectState) :
    (∀ i : Nat, i ∈ (handleGenerateAllImages outcomes st).2 ↔
        ∃ s : Scene, st.scenes[i]? = some s
          ∧ (s.imageUrl = none ∨ s.imageUrl = some "")
          ∧ s.isGeneratingImage ≠ some true
          ∧ s.visualPrompt ≠ "")
    ∧ List.Pairwise (fun a b => a < b) (handleGenerateAllImages outcomes st).2
    ∧ (∀ (j : Nat) (s : Scene), st.scenes[j]? = some s →
        ¬((s.imageUrl = none ∨ s.imageUrl = some "")
            ∧ s.isGeneratingImage ≠ some true ∧ s.visualPrompt ≠ "") →
        (handleGenerateAllImages outcomes st).1.scenes[j]? = some s)
    ∧ (handleGenerateAllImages outcomes st).1.style = st.style
    ∧ (handleGenerateAllImages outcomes st).1.story = st.story
    ∧ (handleGenerateAllImages outcomes st).1.casting = st.casting := by
  have hmeta := goImagesLoop_fst_meta st.scenes outcomes
    (List.range st.scenes.length) st
  refine ⟨?_, ?_, ?_, hmeta.1, hmeta.2.1, hmeta.2.2⟩
  · intro i
    rw [handleGenerateAllImages, goImagesLoop_snd]
    rw [List.mem_filter]
    constructor
    · rintro ⟨hr, hp⟩
      cases h : st.scenes[i]? with
      | none => rw [h] at hp; simp at hp
      | some s =>
        rw [h] at hp
        simp only [Option.map_some', Option.getD_some] at hp
        exact ⟨s, h ▸ rfl, (sceneEligible_iff s).mp hp⟩
    · rintro ⟨s, hs, hc⟩
      have hlt : i < st.scenes.length := by
        by_contra hge
        rw [List.getElem?_eq_none (Nat.le_of_not_lt hge)] at hs
        exact Option.noConfusion hs
      refine ⟨List.mem_range.mpr hlt, ?_⟩
      rw [hs]
      simpa using (sceneEligible_iff s).mpr hc
  · rw [handleGenerateAllImages, goImagesLoop_snd]
    exact List.Pairwise.sublist (List.filter_sublist _) (List.pairwise_lt_range _)
  · intro j s hs hnot
    rw [handleGenerateAllImages]
    rw [goImagesLoop_fst_get?]
    · exact hs
    · intro i _ s' hs' he heq
      subst heq
      rw [hs] at hs'
      injection hs' with hs'
      subst hs'
      exact hnot ((sceneEligible_iff s).mp he)

/-- Scenes exercising claim C6: scenes 1 and 3 already have images, scene 2
has an empty prompt, scene 4 is eligible. -/
def c6SceneA : Scene :=
  { sceneNumber := 1, textExcerpt := "a", characters := "",
    selectedCharacterIds := some [], visualPrompt := "p",
    imageUrl := some "imgA", isGeneratingImage := none }

def c6SceneB : Scene :=
  { sceneNumber := 2, textExcerpt := "b", characters := "",
    selectedCharacterIds := some [], visualPrompt := "",
    imageUrl := none, isGeneratingImage := none }

def c6SceneC : Scene :=
  { sceneNumber := 3, textExcerpt := "c", characters := "",
    selectedCharacterIds := some [], visualPrompt := "p",
    imageUrl := some "imgC", isGeneratingImage := none }

def c6SceneD : Scene :=
  { sceneNumber := 4, textExcerpt := "d", characters := "",
    selectedCharacterIds := some [], visualPrompt := "pd",
    imageUrl := none, isGeneratingImage := none }

def c6State : ProjectState :=
  { style := "st", story := "", casting := [],
    scenes := [c6SceneA, c6SceneB, c6SceneC, c6SceneD] }

theorem c6_generate_all_images_invokes_exactly_eligible_witness :
    3 ∈ (handleGenerateAllImages (fun _ => some "new") c6State).2
    ∧ (handleGenerateAllImages (fun _ => some "new") c6State).1.scenes[0]?
        = some c6SceneA
    ∧ (handleGenerateAllImages (fun _ => some "new") c6State).1.casting
        = c6State.casting := by
  obtain ⟨h1, _, h3, _, _, h6⟩ :=
    c6_generate_all_images_invokes_exactly_eligible (fun _ => some "new") c6State
  refine ⟨(h1 3).mpr ⟨c6SceneD, rfl, Or.inl rfl, by decide, by decide⟩, ?_, h6⟩
  exact h3 0 c6SceneA rfl (by decide)

/-- The whitespace characters removed by the JS String trim method (ASCII
part: space, tab, line feed, carriage return, vertical tab, form feed). -/
def jsWhitespace (c : Char) : Bool :=
  c == ' ' || c == '\t' || c == '\n' || c == '\r' || c == '\x0b' || c == '\x0c'

/-- JS `s.trim()` over the character list of a string. -/
def trimChars (s : List Char) : List Char :=
  ((s.dropWhile jsWhitespace).reverse.dropWhile jsWhitespace).reverse

/-- JS `s.trim()`. -/
def jsTrim (s : String) : String := String.mk (trimChars s.data)

/-- JS `s.split(String.fromCharCode(10))`: n separator occurrences give n + 1
components. -/
def splitNl : List Char → List (List Char)
  | [] => [[]]
  | c :: cs =>
    if c = '\n' then [] :: splitNl cs
    else
      match splitNl cs with
      | [] => [[c]]
      | l :: ls => (c :: l) :: ls

/-- JS `batchScenesText.split(newline)` on a Lean string. -/
def jsSplitLines (s : String) : List String := (splitNl s.data).map String.mk

/-- The scene object built for the line at 0-based position `idx` of the
filtered line list, when `m = scenes.length + idx`:
`sceneNumber: scenes.length + idx + 1, textExcerpt: line.trim(), ...`. -/
def mkBatchScene (m : Nat) (line : String) : Scene :=
  { sceneNumber := (m : Int) + 1, textExcerpt := jsTrim line, characters := "",
    selectedCharacterIds := some [], visualPrompt := "", imageUrl := none,
    isGeneratingImage := none }

/-- `lines.map((line, idx) => ...)` of handleBatchAddScenes, carrying the
offset for the scene numbering. -/
def buildNewScenes (n : Nat) : List String → List Scene
  | [] => []
  | line :: rest => mkBatchScene n line :: buildNewScenes (n + 1) rest

/-- `handleBatchAddScenes` from the App component.  The early return fires
when the whole input trims to the empty string; otherwise the input is split
on newlines, blank lines are dropped, and one scene per remaining line is
appended.  (`setBatchScenesText` only clears the transient text box and is
not project state.) -/
def handleBatchAddScenes (batchScenesText : String) (st : ProjectState) :
    ProjectState :=
  if jsTrim batchScenesText = "" then st
  else
    let lines := (jsSplitLines batchScenesText).filter (fun line => decide ((jsTrim line).length > 0))
    { st with scenes := st.scenes ++ buildNewScenes st.scenes.length lines }

theorem trimChars_eq_nil_iff (s : List Char) :
    trimChars s = [] ↔ ∀ c ∈ s, jsWhitespace c = true := by
  unfold trimChars
  rw [List.reverse_eq_nil_iff, List.dropWhile_eq_nil_iff]
  constructor
  · intro h c hc
    have hd : ∀ a ∈ s.dropWhile jsWhitespace, jsWhitespace a = true :=
      fun a ha => h a (List.mem_reverse.mpr ha)
    rcases List.mem_append.mp
        ((List.takeWhile_append_dropWhile jsWhitespace s).symm ▸ hc) with h1 | h2
    · exact List.mem_takeWhile_imp h1
    · exact hd c h2
  · intro h a ha
    exact h a (List.Sublist.subset (List.dropWhile_sublist _)
      (List.mem_reverse.mp ha))

theorem splitNl_ne_nil (s : List Char) : splitNl s ≠ [] := by
  induction s with
  | nil => simp [splitNl]
  | cons c cs ih =>
    by_cases h : c = '\n'
    · simp [splitNl, h]
    · simp only [splitNl, if_neg h]
      cases hs : splitNl cs with
      | nil => simp
      | cons l ls => simp

theorem mem_splitNl_subset (s : List Char) :
    ∀ l ∈ splitNl s, ∀ c ∈ l, c ∈ s := by
  induction s with
  | nil =>
    intro l hl c hc
    simp [splitNl] at hl
    subst hl
    simp at hc
  | cons d cs ih =>
    intro l hl c hc
    by_cases h : d = '\n'
    · simp only [splitNl, if_pos h] at hl
      rcases List.mem_cons.mp hl with rfl | hl'
      · simp at hc
      · exact List.mem_cons_of_mem _ (ih l hl' c hc)
    · simp only [splitNl, if_neg h] at hl
      cases hs : splitNl cs with
      | nil => exact absurd hs (splitNl_ne_nil cs)
      | cons l0 ls =>
        rw [hs] at hl
        rcases List.mem_cons.mp hl with rfl | hl'
        · rcases List.mem_cons.mp hc with rfl | hc'
          · exact List.mem_cons_self _ _
          · exact List.mem_cons_of_mem _
              (ih l0 (hs ▸ List.mem_cons_self _ _) c hc')
        · exact List.mem_cons_of_mem _
            (ih l (hs ▸ List.mem_cons_of_mem _ hl') c hc)

theorem filter_lines_eq_nil (text : String) (h : jsTrim text = "") :
    (jsSplitLines text).filter (fun line => decide ((jsTrim line).length > 0))
      = [] := by
  rw [List.filter_eq_nil]
  intro line hline
  rcases List.mem_map.mp hline with ⟨l, hl, rfl⟩
  have hall : ∀ c ∈ text.data, jsWhitespace c = true :=
    (trimChars_eq_nil_iff text.data).mp (congrArg String.data h)
  have htriml : trimChars l = [] :=
    (trimChars_eq_nil_iff l).mpr
      (fun c hc => hall c (mem_splitNl_subset text.data l hl c hc))
  simp [jsTrim, htriml, String.length]

theorem buildNewScenes_length (lines : List String) :
    ∀ n : Nat, (buildNewScenes n lines).length = lines.length := by
  induction lines with
  | nil => intro n; rfl
  | cons l rest ih => intro n; simp [buildNewScenes, ih]

theorem buildNewScenes_getElem? (lines : List String) :
    ∀ n i : Nat, (buildNewScenes n lines)[i]?
      = (lines[i]?).map (fun line => mkBatchScene (n + i) line) := by
  induction lines with
  | nil => intro n i; simp [buildNewScenes]
  | cons l rest ih =>
    intro n i
    cases i with
    | zero => simp [buildNewScenes]
    | succ m =>
      simp only [buildNewScenes, List.getElem?_cons_succ]
      rw [ih (n + 1) m, show n + 1 + m = n + (m + 1) from by omega]

/-- Claim C5: batch-adding a text with k non-blank lines appends exactly k
scenes at the end, numbered continuing from the current count, each holding
its trimmed source line as textExcerpt with empty prompt, empty character
summary, no image, no generating flag and an empty selection set; existing
scenes, style, story and cast are unchanged. -/
theorem c5_batch_add_scenes_appends_trimmed_lines (batchScenesText : String)
    (st : ProjectState) :
    (handleBatchAddScenes batchScenesText st).style = st.style
    ∧ (handleBatchAddScenes batchScenesText st).story = st.story
    ∧ (handleBatchAddScenes batchScenesText st).casting = st.casting
    ∧ (handleBatchAddScenes batchScenesText st).scenes.length
        = st.scenes.length + ((jsSplitLines batchScenesText).filter (fun line => decide ((jsTrim line).length > 0))).length
    ∧ (∀ j : Nat, j < st.scenes.length →
        (handleBatchAddScenes batchScenesText st).scenes[j]? = st.scenes[j]?)
    ∧ (∀ (i : Nat) (line : String),
        ((jsSplitLines batchScenesText).filter (fun line => decide ((jsTrim line).length > 0)))[i]? = some line →
        (handleBatchAddScenes batchScenesText st).scenes[st.scenes.length + i]?
          = some { sceneNumber := (st.scenes.length : Int) + i + 1, textExcerpt := jsTrim line, characters := "", selectedCharacterIds := some [], visualPrompt := "", imageUrl := none, isGeneratingImage := none }) := by
  by_cases h : jsTrim batchScenesText = ""
  · have hfil := filter_lines_eq_nil batchScenesText h
    unfold handleBatchAddScenes
    rw [if_pos h]
    refine ⟨rfl, rfl, rfl, by rw [hfil]; rfl, fun j hj => rfl, ?_⟩
    intro i line hline
    rw [hfil] at hline
    simp at hline
  · unfold handleBatchAddScenes
    rw [if_neg h]
    refine ⟨rfl, rfl, rfl, ?_, ?_, ?_⟩
    · simp [buildNewScenes_length]
    · intro j hj
      exact List.getElem?_append_left hj
    · intro i line hline
      show (st.scenes ++ buildNewScenes st.scenes.length _)[st.scenes.length + i]? = _
      rw [List.getElem?_append_right (Nat.le_add_right _ _),
        show st.scenes.length + i - st.scenes.length = i from by omega,
        buildNewScenes_getElem?, hline]
      simp only [Option.map_some', mkBatchScene, Option.some.injEq]
      congr 1

/-- Concrete state and input exercising claim C5: one existing scene and a
four-line input with two non-blank lines. -/
def c5Scene0 : Scene :=
  { sceneNumber := 1, textExcerpt := "old", characters := "",
    selectedCharacterIds := some [], visualPrompt := "", imageUrl := none,
    isGeneratingImage := none }

def c5State : ProjectState :=
  { style := "s", story := "", casting := [], scenes := [c5Scene0] }

def c5Text : String := "  \nfirst line \n\n second"

theorem c5_batch_add_scenes_appends_trimmed_lines_witness :
    (handleBatchAddScenes c5Text c5State).scenes.length
        = c5State.scenes.length + 2
    ∧ (handleBatchAddScenes c5Text c5State).scenes[0]? = c5State.scenes[0]?
    ∧ (handleBatchAddScenes c5Text c5State).scenes[c5State.scenes.length + 0]?
        = some { sceneNumber := (c5State.scenes.length : Int) + 0 + 1, textExcerpt := jsTrim "first line ", characters := "", selectedCharacterIds := some [], visualPrompt := "", imageUrl := none, isGeneratingImage := none }
    ∧ (handleBatchAddScenes c5Text c5State).scenes[c5State.scenes.length + 1]?
        = some { sceneNumber := (c5State.scenes.length : Int) + 1 + 1, textExcerpt := jsTrim " second", characters := "", selectedCharacterIds := some [], visualPrompt := "", imageUrl := none, isGeneratingImage := none } := by
  obtain ⟨_, _, _, h4, h5, h6⟩ :=
    c5_batch_add_scenes_appends_trimmed_lines c5Text c5State
  refine ⟨by rw [h4]; rfl, h5 0 (by decide), h6 0 "first line " (by decide),
    h6 1 " second" (by decide)⟩

/-- Classification of the errors thrown by src/services/geminiService.ts:
the missing-credential throw (`GEMINI_API_KEY is missing`) is the
configuration error of the spec taxonomy; the empty-response, parse-failure
and no-image throws are generation errors. -/
inductive ServiceError where
  | configuration (msg : String)
  | generation (msg : String)
deriving DecidableEq, Repr

/-- One element of the `parts` array of the request generateImageForScene
constructs: an inlineData conditioning image (mime type and base64 payload)
or the text prompt. -/
inductive RequestPart where
  | image (mimeType : String) (data : String)
  | text (content : String)
deriving DecidableEq, Repr

/-- JS regex word character class: letters, digits and underscore. -/
def isWordChar (c : Char) : Bool := c.isAlpha || c.isDigit || c == '_'

/-- The line terminators that JS regex dot does not match. -/
def isLineTerminator (c : Char) : Bool :=
  c == '\n' || c == '\r' || c == ' ' || c == ' '

/-- Strip an expected literal from the front of a character list. -/
def dropLit : List Char → List Char → Option (List Char)
  | [], s => some s
  | _ :: _, [] => none
  | c :: p, d :: s => if d = c then dropLit p s else none

/-- The regex match of generateImageForScene on a reference image string:
`data:image/` then one or more word characters (the first capture together
with `image/`), then `;base64,`, then one or more non-line-terminator
characters to the end of the string (the second capture). -/
def matchDataUri (s : String) : Option (String × String) :=
  match dropLit "data:image/".data s.data with
  | none => none
  | some rest =>
    let w := rest.takeWhile isWordChar
    let rest2 := rest.dropWhile isWordChar
    if w.isEmpty then none
    else
      match dropLit ";base64,".data rest2 with
      | none => none
      | some d =>
        if d.isEmpty || d.any isLineTerminator then none
        else some (String.mk ("image/".data ++ w), String.mk d)

/-- The `fullPrompt` string of generateImageForScene: the style and scene
description, then - only when characters are cast - one name/prompt line per
character and the consistency instruction (two += statements). -/
def fullPrompt (prompt style : String) (characters : List Character) : String :=
  let base := "Style: " ++ style ++ ". \nScene description: " ++ prompt
  if characters.length > 0 then
    base ++ ("\nCharacters in scene:\n" ++ String.intercalate "\n" (characters.map (fun c => "- " ++ c.name ++ ": " ++ c.prompt))) ++ "\n(Please maintain character consistency with the provided reference images if any)."
  else base

/-- The for-of loop of generateImageForScene: for each character, when its
referenceImage is truthy and matches the data URI regex, push one inlineData
part. -/
def collectImageParts : List Character → List RequestPart
  | [] => []
  | c :: rest =>
    match c.referenceImage with
    | some r =>
      if r ≠ "" then
        match matchDataUri r with
        | some md => RequestPart.image md.1 md.2 :: collectImageParts rest
        | none => collectImageParts rest
      else collectImageParts rest
    | none => collectImageParts rest

/-- The complete `parts` array of the request generateImageForScene sends:
the collected image parts, then `parts.push({ text: fullPrompt })`. -/
def buildParts (prompt style : String) (characters : List Character) :
    List RequestPart :=
  collectImageParts characters
    ++ [RequestPart.text (fullPrompt prompt style characters)]

/-- The conditioning part a single character contributes, if any (reference
image present, truthy, and matching the data URI regex). -/
def charImagePart (c : Character) : Option RequestPart :=
  match c.referenceImage with
  | some r =>
    if r ≠ "" then (matchDataUri r).map (fun md => RequestPart.image md.1 md.2)
    else none
  | none => none

/-- `generateStoryboard` from geminiService.ts.  `apiKey` models
`process.env.GEMINI_API_KEY` (`none` when unset); the throw happens before
the client is constructed or any request is made.  `responseText` is the
`response.text` of the awaited call (`none` for undefined) and `parsed`
models `JSON.parse` of that text (`none` when parsing throws). -/
def generateStoryboard (apiKey : Option String) (style story : String)
    (responseText : Option String) (parsed : Option (List Scene)) :
    Except ServiceError (List Scene) :=
  match apiKey with
  | none => .error (.configuration "GEMINI_API_KEY is missing")
  | some _ =>
    match responseText with
    | none => .error (.generation "Nenhuma resposta recebida da IA.")
    | some t =>
      if t = "" then .error (.generation "Nenhuma resposta recebida da IA.")
      else
        match parsed with
        | some scenes => .ok scenes
        | none => .error (.generation "Erro ao interpretar a resposta da IA como JSON.")

/-- `generateImageForScene` from geminiService.ts.  The response scan walks
`candidates[0].content.parts`; each element either carries inlineData
(modelled `some data`) or not (`none`); the first inlineData part yields the
returned png data URI, otherwise the no-image generation error is thrown. -/
def generateImageForScene (apiKey : Option String) (prompt style : String)
    (characters : List Character) (responseParts : List (Option String)) :
    Except ServiceError String :=
  match apiKey with
  | none => .error (.configuration "GEMINI_API_KEY is missing")
  | some _ =>
    match responseParts.findSome? id with
    | some d => .ok ("data:image/png;base64," ++ d)
    | none => .error (.generation "Nenhuma imagem retornada pela IA.")

/-- `generatePromptForScene` from geminiService.ts.  Its final statement is
`return response.text || ""`: an empty or missing response text is replaced
by the empty string and returned as a normal value. -/
def generatePromptForScene (apiKey : Option String)
    (style textExcerpt : String) (characters : List Character)
    (responseText : Option String) : Except ServiceError String :=
  match apiKey with
  | none => .error (.configuration "GEMINI_API_KEY is missing")
  | some _ =>
    match responseText with
    | none => .ok ""
    | some t => .ok (if t = "" then "" else t)

/-- Claim C7 counterexample: with the credential present and an empty or
missing response text, generatePromptForScene returns Except.ok with the
empty string; it does not fail with a GenerationError as the claim states. -/
theorem c7_counterexample_empty_response_returns_ok :
    generatePromptForScene (some "key") "style" "excerpt" [] none = .ok ""
    ∧ generatePromptForScene (some "key") "style" "excerpt" [] (some "")
        = .ok "" :=
  ⟨rfl, rfl⟩

/-- Claim C7 amended: for every style, text excerpt and character list, if the
credential is present and the external call returns an empty or missing
response text, generatePromptForScene succeeds with the empty string (no
GenerationError is raised). -/
theorem c7_amended_empty_response_returns_empty_string (apiKey : String)
    (style textExcerpt : String) (characters : List Character)
    (responseText : Option String)
    (h : responseText = none ∨ responseText = some "") :
    generatePromptForScene (some apiKey) style textExcerpt characters
      responseText = .ok "" := by
  rcases h with rfl | rfl <;> rfl

theorem c7_amended_empty_response_returns_empty_string_witness :
    ((none : Option String) = none ∨ (none : Option String) = some "")
    ∧ generatePromptForScene (some "key") "style" "excerpt" [] none
        = .ok "" :=
  ⟨Or.inl rfl,
   c7_amended_empty_response_returns_empty_string "key" "style" "excerpt" []
     none (Or.inl rfl)⟩

/-- Claim C8: each of the three generation operations raises the
configuration error when the credential is absent, whatever the response
oracle holds (so before any network data is consulted), and a configuration
error is distinct from every generation error. -/
theorem c8_missing_credential_raises_configuration_error
    (style story prompt textExcerpt : String) (characters : List Character)
    (responseText : Option String) (parsed : Option (List Scene))
    (responseParts : List (Option String)) :
    generateStoryboard none style story responseText parsed
        = .error (.configuration "GEMINI_API_KEY is missing")
    ∧ generateImageForScene none prompt style characters responseParts
        = .error (.configuration "GEMINI_API_KEY is missing")
    ∧ generatePromptForScene none style textExcerpt characters responseText
        = .error (.configuration "GEMINI_API_KEY is missing")
    ∧ ∀ m1 m2 : String,
        ServiceError.configuration m1 ≠ ServiceError.generation m2 :=
  ⟨rfl, rfl, rfl, fun _ _ h => ServiceError.noConfusion h⟩

theorem c8_missing_credential_raises_configuration_error_witness :
    generateStoryboard none "s" "y" none none
        = .error (.configuration "GEMINI_API_KEY is missing")
    ∧ generateImageForScene none "p" "s" [] []
        = .error (.configuration "GEMINI_API_KEY is missing")
    ∧ generatePromptForScene none "s" "t" [] none
        = .error (.configuration "GEMINI_API_KEY is missing")
    ∧ ServiceError.configuration "GEMINI_API_KEY is missing"
        ≠ ServiceError.generation "Nenhuma imagem retornada pela IA." := by
  obtain ⟨h1, h2, h3, h4⟩ :=
    c8_missing_credential_raises_configuration_error "s" "y" "p" "t" []
      none none []
  exact ⟨h1, h2, h3, h4 _ _⟩

theorem collectImageParts_eq_filterMap (characters : List Character) :
    collectImageParts characters = characters.filterMap charImagePart := by
  induction characters with
  | nil => rfl
  | cons c rest ih =>
    simp only [collectImageParts, List.filterMap_cons, charImagePart]
    cases hr : c.referenceImage with
    | none => simpa using ih
    | some r =>
      by_cases hne : r ≠ ""
      · cases hm : matchDataUri r with
        | none => simp [hne, hm, ih]
        | some md => simp [hne, hm, ih]
      · simp [hne, ih]

/-- A character whose uploaded reference image is an SVG: FileReader encodes
it as `data:image/svg+xml;base64,...`, whose mime subtype is not matched by
the `image/` word-character capture of the regex. -/
def c9Character : Character :=
  { id := "c1", name := "Alice", prompt := "tall, scarred",
    referenceImage := some "data:image/svg+xml;base64,QUJD" }

/-- Claim C9 counterexample: this character has a reference image, yet the
request generateImageForScene constructs contains no conditioning image part
at all - only the text prompt - because the reference image does not match
the `data:image/<wordchars>;base64,<data>` regex. -/
theorem c9_counterexample_reference_image_contributes_no_part :
    c9Character.referenceImage = some "data:image/svg+xml;base64,QUJD"
    ∧ buildParts "prompt" "style" [c9Character]
        = [RequestPart.text (fullPrompt "prompt" "style" [c9Character])] :=
  ⟨rfl, rfl⟩

/-- Claim C9 amended: the request consists of one conditioning image part per
character whose referenceImage is a truthy base64 image data URI matching
`data:image/<wordchars>;base64,<payload>` (non-empty payload without line
terminators), in cast order, followed by the combined text prompt; the text
prompt is the style plus scene description, extended - exactly when
characters are cast - by one name/prompt line per character and the
instruction to preserve character consistency against the supplied
references. -/
theorem c9_amended_image_request_structure (prompt style : String)
    (characters : List Character) :
    buildParts prompt style characters
      = characters.filterMap charImagePart
          ++ [RequestPart.text (fullPrompt prompt style characters)]
    ∧ (characters = [] → fullPrompt prompt style characters
        = "Style: " ++ style ++ ". \nScene description: " ++ prompt)
    ∧ (characters ≠ [] → fullPrompt prompt style characters
        = "Style: " ++ style ++ ". \nScene description: " ++ prompt ++ ("\nCharacters in scene:\n" ++ String.intercalate "\n" (characters.map (fun c => "- " ++ c.name ++ ": " ++ c.prompt))) ++ "\n(Please maintain character consistency with the provided reference images if any).") := by
  refine ⟨?_, ?_, ?_⟩
  · rw [buildParts, collectImageParts_eq_filterMap]
  · intro h
    subst h
    rfl
  · intro h
    simp only [fullPrompt]
    rw [if_pos (List.length_pos.mpr h)]

/-- A character with a well-formed png reference image, for the witness. -/
def c9CharacterValid : Character :=
  { id := "c2", name := "Bob", prompt := "short",
    referenceImage := some "data:image/png;base64,QUJD" }

theorem c9_amended_image_request_structure_witness :
    buildParts "p" "s" [c9CharacterValid]
      = [c9CharacterValid].filterMap charImagePart
          ++ [RequestPart.text (fullPrompt "p" "s" [c9CharacterValid])]
    ∧ fullPrompt "p" "s" [c9CharacterValid]
        = "Style: " ++ "s" ++ ". \nScene description: " ++ "p" ++ ("\nCharacters in scene:\n" ++ String.intercalate "\n" ([c9CharacterValid].map (fun c => "- " ++ c.name ++ ": " ++ c.prompt))) ++ "\n(Please maintain character consistency with the provided reference images if any)."
    ∧ buildParts "p" "s" [c9CharacterValid]
        = [RequestPart.image "image/png" "QUJD",
           RequestPart.text (fullPrompt "p" "s" [c9CharacterValid])] := by
  have H := c9_amended_image_request_structure "p" "s" [c9CharacterValid]
  exact ⟨H.1, H.2.2 (List.cons_ne_nil _ _), by decide⟩

/-- A JSON value as produced by JS JSON.parse (numbers restricted to the
integers this program stores).  Object fields keep their textual order. -/
inductive Json where
  | null
  | bool (b : Bool)
  | num (n : Int)
  | str (s : String)
  | arr (elems : List Json)
  | obj (fields : List (String × Json))

/-- First binding of a key in an object field list. -/
def lookupField : List (String × Json) → String → Option Json
  | [], _ => none
  | (k, v) :: rest, key => if k = key then some v else lookupField rest key

/-- JS property access `projectData.key` on a parsed JSON value: an object
yields its binding for the key (undefined when absent, modelled `none`); any
non-null primitive or array yields undefined; the null case throws and is
handled by the caller. -/
def jsonGet (j : Json) (key : String) : Option Json :=
  match j with
  | .obj fields => lookupField fields key
  | _ => none

/-- The four project fields exactly as `handleImport` stores them: raw
parsed JSON values, because lines 55-58 of the App component assign
`projectData.style` etc. without any validation. -/
structure RawProject where
  style : Json
  story : Json
  casting : Json
  scenes : Json

/-- `handleImport` from the App component.  `parsed` is the result of
`JSON.parse(content)`: `none` when parsing throws.  The boolean result is
true exactly when the catch branch ran and the ImportError alert was shown:
on a parse failure, and on JSON null (where `projectData.style` throws a
TypeError).  Every other parsed value is accepted: each of the four keys
present overwrites the corresponding field, absent keys leave it unchanged. -/
def handleImport (parsed : Option Json) (st : RawProject) : RawProject × Bool :=
  match parsed with
  | none => (st, true)
  | some Json.null => (st, true)
  | some j =>
    let st1 := match jsonGet j "style" with | some v => { st with style := v } | none => st
    let st2 := match jsonGet j "story" with | some v => { st1 with story := v } | none => st1
    let st3 := match jsonGet j "casting" with | some v => { st2 with casting := v } | none => st2
    let st4 := match jsonGet j "scenes" with | some v => { st3 with scenes := v } | none => st3
    (st4, false)

/-- JSON.stringify of an in-memory Character: keys in declaration order; a
key holding undefined is dropped by stringify. -/
def encodeCharacter (c : Character) : Json :=
  Json.obj ([("id", Json.str c.id), ("name", Json.str c.name), ("prompt", Json.str c.prompt)]
    ++ (match c.referenceImage with | some rimg => [("referenceImage", Json.str rimg)] | none => []))

/-- JSON.stringify of an in-memory Scene: optional fields present only when
defined; image payloads ride along inline in `imageUrl`. -/
def encodeScene (s : Scene) : Json :=
  Json.obj ([("sceneNumber", Json.num s.sceneNumber), ("textExcerpt", Json.str s.textExcerpt), ("characters", Json.str s.characters)]
    ++ (match s.selectedCharacterIds with | some ids => [("selectedCharacterIds", Json.arr (ids.map Json.str))] | none => [])
    ++ [("visualPrompt", Json.str s.visualPrompt)]
    ++ (match s.imageUrl with | some u => [("imageUrl", Json.str u)] | none => [])
    ++ (match s.isGeneratingImage with | some b => [("isGeneratingImage", Json.bool b)] | none => []))

/-- The descriptor `handleExport` writes into storyboard-project.json:
`JSON.stringify({ style, story, casting, scenes })`. -/
def exportDescriptor (st : ProjectState) : Json :=
  Json.obj [("style", Json.str st.style), ("story", Json.str st.story), ("casting", Json.arr (st.casting.map encodeCharacter)), ("scenes", Json.arr (st.scenes.map encodeScene))]

/-- The raw JSON view of a typed project state. -/
def rawOfState (st : ProjectState) : RawProject :=
  { style := Json.str st.style, story := Json.str st.story,
    casting := Json.arr (st.casting.map encodeCharacter),
    scenes := Json.arr (st.scenes.map encodeScene) }

def decodeStr : Json → Option String
  | .str s => some s
  | _ => none

def decodeJsonList {α : Type} (f : Json → Option α) : List Json → Option (List α)
  | [] => some []
  | x :: xs =>
    match f x, decodeJsonList f xs with
    | some a, some rest => some (a :: rest)
    | _, _ => none

def decodeOptStr : Option Json → Option (Option String)
  | none => some none
  | some (.str s) => some (some s)
  | some _ => none

def decodeOptBool : Option Json → Option (Option Bool)
  | none => some none
  | some (.bool b) => some (some b)
  | some _ => none

def decodeOptStrList : Option Json → Option (Option (List String))
  | none => some none
  | some (.arr xs) => (decodeJsonList decodeStr xs).map (fun l => some l)
  | some _ => none

/-- Read a Character back out of its descriptor object. -/
def decodeCharacter (j : Json) : Option Character :=
  match j with
  | .obj fields =>
    match lookupField fields "id", lookupField fields "name", lookupField fields "prompt", decodeOptStr (lookupField fields "referenceImage") with
    | some (.str id), some (.str name), some (.str prompt), some rimg => some { id := id, name := name, prompt := prompt, referenceImage := rimg }
    | _, _, _, _ => none
  | _ => none

/-- Read a Scene back out of its descriptor object. -/
def decodeScene (j : Json) : Option Scene :=
  match j with
  | .obj fields =>
    match lookupField fields "sceneNumber", lookupField fields "textExcerpt", lookupField fields "characters", lookupField fields "visualPrompt" with
    | some (.num n), some (.str t), some (.str c), some (.str v) =>
      match decodeOptStrList (lookupField fields "selectedCharacterIds"), decodeOptStr (lookupField fields "imageUrl"), decodeOptBool (lookupField fields "isGeneratingImage") with
      | some sel, some img, some flag => some { sceneNumber := n, textExcerpt := t, characters := c, selectedCharacterIds := sel, visualPrompt := v, imageUrl := img, isGeneratingImage := flag }
      | _, _, _ => none
    | _, _, _, _ => none
  | _ => none

/-- Read a full typed project back out of the raw field values. -/
def decodeRawProject (r : RawProject) : Option ProjectState :=
  match r.style, r.story, r.casting, r.scenes with
  | .str style, .str story, .arr cs, .arr ss =>
    match decodeJsonList decodeCharacter cs, decodeJsonList decodeScene ss with
    | some casting, some scenes => some { style := style, story := story, casting := casting, scenes := scenes }
    | _, _ => none
  | _, _, _, _ => none

theorem decodeJsonList_map {α : Type} (f : Json → Option α) (g : α → Json)
    (hfg : ∀ a, f (g a) = some a) (l : List α) :
    decodeJsonList f (l.map g) = some l := by
  induction l with
  | nil => rfl
  | cons a rest ih => simp [decodeJsonList, hfg, ih]

theorem decodeCharacter_encodeCharacter (c : Character) :
    decodeCharacter (encodeCharacter c) = some c := by
  obtain ⟨id, name, prompt, rimg⟩ := c
  cases rimg <;> rfl

theorem decodeScene_encodeScene (s : Scene) :
    decodeScene (encodeScene s) = some s := by
  obtain ⟨n, t, c, sel, v, img, flag⟩ := s
  cases sel with
  | none => cases img <;> cases flag <;> rfl
  | some ids =>
    cases img <;> cases flag <;>
      simp [decodeScene, encodeScene, decodeOptStrList, decodeOptStr,
        decodeOptBool, lookupField,
        decodeJsonList_map decodeStr Json.str (fun a => rfl)]

/-- Claim C3: exporting a project produces the descriptor with keys style,
story, casting, scenes; importing that descriptor (from any prior state)
overwrites all four raw fields with the exported values, raises no
ImportError, and the resulting raw state decodes back to a project equal in
style, story, cast and scenes - image payloads included - to the original. -/
theorem c3_export_import_round_trip (st : ProjectState) (r : RawProject) :
    handleImport (some (exportDescriptor st)) r = (rawOfState st, false)
    ∧ decodeRawProject (rawOfState st) = some st := by
  constructor
  · rfl
  · simp [decodeRawProject, rawOfState,
      decodeJsonList_map decodeCharacter encodeCharacter decodeCharacter_encodeCharacter,
      decodeJsonList_map decodeScene encodeScene decodeScene_encodeScene]

theorem handleImport_some_fields (j : Json) (hne : j ≠ Json.null)
    (r : RawProject) :
    handleImport (some j) r
      = ({ style := (jsonGet j "style").getD r.style, story := (jsonGet j "story").getD r.story, casting := (jsonGet j "casting").getD r.casting, scenes := (jsonGet j "scenes").getD r.scenes }, false) := by
  cases j with
  | null => exact absurd rfl hne
  | bool b => rfl
  | num n => rfl
  | str s => rfl
  | arr xs => rfl
  | obj fields =>
    cases h1 : lookupField fields "style" <;>
      cases h2 : lookupField fields "story" <;>
      cases h3 : lookupField fields "casting" <;>
      cases h4 : lookupField fields "scenes" <;>
      simp [handleImport, jsonGet, h1, h2, h3, h4]

/-- Claim C4 amended: import raises ImportError exactly when the file content
is not valid JSON or parses to JSON null; on such a failure the in-memory
project is byte-for-byte unchanged.  Every other parsed JSON value -
descriptor-shaped or not - is accepted without error: each of the four keys
that is present overwrites the corresponding field with the raw descriptor
value (no validation), and each absent key leaves the field unchanged. -/
theorem c4_amended_import_error_exactly_on_parse_failure
    (parsed : Option Json) (r : RawProject) :
    ((handleImport parsed r).2 = true
        ↔ (parsed = none ∨ parsed = some Json.null))
    ∧ ((handleImport parsed r).2 = true → (handleImport parsed r).1 = r)
    ∧ (∀ j : Json, parsed = some j → j ≠ Json.null →
        (handleImport parsed r).1.style = (jsonGet j "style").getD r.style
        ∧ (handleImport parsed r).1.story = (jsonGet j "story").getD r.story
        ∧ (handleImport parsed r).1.casting = (jsonGet j "casting").getD r.casting
        ∧ (handleImport parsed r).1.scenes = (jsonGet j "scenes").getD r.scenes) := by
  cases parsed with
  | none =>
    refine ⟨by simp [handleImport], fun _ => rfl, ?_⟩
    intro j hj
    exact absurd hj (by simp)
  | some j =>
    by_cases hne : j = Json.null
    · subst hne
      refine ⟨by simp [handleImport], fun _ => rfl, ?_⟩
      intro j' hj' hne'
      injection hj' with hj'
      exact absurd hj'.symm hne'
    · rw [handleImport_some_fields j hne r]
      refine ⟨by simp [hne], by simp, ?_⟩
      intro j' hj' _
      injection hj' with hj'
      subst hj'
      exact ⟨rfl, rfl, rfl, rfl⟩

/-- A concrete raw project used by the import claims. -/
def c4Raw : RawProject :=
  { style := Json.str "s0", story := Json.str "y0",
    casting := Json.arr [], scenes := Json.arr [] }

/-- Claim C4 counterexample: the file content `[1,2,3]` is parseable JSON but
is not the structured descriptor, yet import raises no ImportError (flag
false): it is silently accepted as a no-op, contradicting the claim that any
non-descriptor file shape yields ImportError. -/
theorem c4_counterexample_array_import_raises_no_error :
    handleImport (some (Json.arr [Json.num 1, Json.num 2, Json.num 3])) c4Raw
      = (c4Raw, false) := rfl

theorem c4_amended_import_error_exactly_on_parse_failure_witness :
    ((handleImport (none : Option Json) c4Raw).2 = true
        ↔ ((none : Option Json) = none ∨ (none : Option Json) = some Json.null))
    ∧ (handleImport (none : Option Json) c4Raw).1 = c4Raw
    ∧ (handleImport (some (Json.obj [("style", Json.str "z")])) c4Raw).1.style
        = (jsonGet (Json.obj [("style", Json.str "z")]) "style").getD c4Raw.style := by
  obtain ⟨i1, i2, _⟩ :=
    c4_amended_import_error_exactly_on_parse_failure none c4Raw
  obtain ⟨_, _, i3⟩ :=
    c4_amended_import_error_exactly_on_parse_failure
      (some (Json.obj [("style", Json.str "z")])) c4Raw
  exact ⟨i1, i2 (i1.mpr (Or.inl rfl)),
    (i3 _ rfl (fun h => Json.noConfusion h)).1⟩

/-- `handleAddCharacter` from the App component: appends a character with a
fresh id from crypto.randomUUID (the `id` oracle) and empty fields. -/
def handleAddCharacter (id : String) (st : ProjectState) : ProjectState :=
  { st with casting := st.casting ++ [{ id := id, name := "", prompt := "", referenceImage := none }] }

/-- The three Character fields the UI passes to handleUpdateCharacter. -/
inductive CharField where
  | name
  | prompt
  | referenceImage

/-- The computed-property update `{ ...c, [field]: value }`. -/
def setCharField (c : Character) (field : CharField) (v : String) : Character :=
  match field with
  | .name => { c with name := v }
  | .prompt => { c with prompt := v }
  | .referenceImage => { c with referenceImage := some v }

/-- `handleUpdateCharacter(id, field, value)`: in-place update by id. -/
def handleUpdateCharacter (id : String) (field : CharField) (v : String)
    (st : ProjectState) : ProjectState :=
  { st with casting := st.casting.map (fun c => if c.id = id then setCharField c field v else c) }

/-- `handleRemoveCharacter(id)`: drop the character from the cast and the id
from every scene selection set (an undefined selection set stays undefined). -/
def handleRemoveCharacter (id : String) (st : ProjectState) : ProjectState :=
  { st with
    casting := st.casting.filter (fun c => decide (c.id ≠ id)),
    scenes := st.scenes.map (fun s => { s with selectedCharacterIds := s.selectedCharacterIds.map (fun sel => sel.filter (fun cId => decide (cId ≠ id))) }) }

/-- The success branch of handleGenerateStoryboard:
`setScenes(generatedScenes.map(s => ({ ...s, selectedCharacterIds: [] })))`. -/
def replaceScenesFromStoryboard (drafts : List Scene) (st : ProjectState) :
    ProjectState :=
  { st with scenes := drafts.map (fun s => { s with selectedCharacterIds := some [] }) }

/-- The per-scene toggle of `toggleCharacterInScene`: remove the id when
already selected, append it otherwise (an undefined set counts as empty). -/
def toggleSel (characterId : String) (s : Scene) : Scene :=
  let selected := s.selectedCharacterIds.getD []
  if characterId ∈ selected then
    { s with selectedCharacterIds := some (selected.filter (fun id => decide (id ≠ characterId))) }
  else
    { s with selectedCharacterIds := some (selected ++ [characterId]) }

/-- `toggleCharacterInScene(sceneIndex, characterId)` from the App component. -/
def toggleCharacterInScene (sceneIndex : Nat) (characterId : String)
    (st : ProjectState) : ProjectState :=
  { st with scenes := modifyAt sceneIndex (toggleSel characterId) st.scenes }

/-- The scene delete button: `setScenes(scenes.filter((_, i) => i !== index))`. -/
def handleDeleteScene (index : Nat) (st : ProjectState) : ProjectState :=
  { st with scenes := st.scenes.eraseIdx index }

/-- The visual prompt textarea: `newScenes[index].visualPrompt = value`. -/
def handleEditVisualPrompt (index : Nat) (v : String) (st : ProjectState) :
    ProjectState :=
  { st with scenes := modifyAt index (fun s => { s with visualPrompt := v }) st.scenes }

/-- The Project Model operations of the App component, with external results
(the fresh uuid, the awaited service call outcomes, the segmented drafts) as
payload. -/
inductive ModelOp where
  | addCharacter (id : String)
  | updateCharacter (id : String) (field : CharField) (v : String)
  | removeCharacter (id : String)
  | batchAddScenes (text : String)
  | replaceScenes (drafts : List Scene)
  | toggleCharacter (sceneIndex : Nat) (characterId : String)
  | editVisualPrompt (sceneIndex : Nat) (v : String)
  | deleteScene (sceneIndex : Nat)
  | generateImage (outcome : Option String) (sceneIndex : Nat)
  | generatePromptOp (outcome : Option String) (sceneIndex : Nat)

def applyOp : ModelOp → ProjectState → ProjectState
  | .addCharacter id, st => handleAddCharacter id st
  | .updateCharacter id field v, st => handleUpdateCharacter id field v st
  | .removeCharacter id, st => handleRemoveCharacter id st
  | .batchAddScenes text, st => handleBatchAddScenes text st
  | .replaceScenes drafts, st => replaceScenesFromStoryboard drafts st
  | .toggleCharacter i cid, st => toggleCharacterInScene i cid st
  | .editVisualPrompt i v, st => handleEditVisualPrompt i v st
  | .deleteScene i, st => handleDeleteScene i st
  | .generateImage oc i, st => handleGenerateImage oc i st
  | .generatePromptOp oc i, st => handleGeneratePromptForScene oc i st

def applyOps : List ModelOp → ProjectState → ProjectState
  | [], st => st
  | op :: ops, st => applyOps ops (applyOp op st)

/-- An operation is UI-valid in a state when character toggling is passed an
id of the current cast - the only call site maps the toggle buttons over
`casting` - and unconditionally otherwise. -/
def validOpB (st : ProjectState) : ModelOp → Bool
  | .toggleCharacter _ cid => decide (cid ∈ st.casting.map Character.id)
  | _ => true

def validSeqB : ProjectState → List ModelOp → Bool
  | _, [] => true
  | st, op :: ops => validOpB st op && validSeqB (applyOp op st) ops

/-- The referential integrity invariant: every id selected in any scene is
the id of a character in the current cast. -/
def SelectedSubsetInv (st : ProjectState) : Prop :=
  ∀ s ∈ st.scenes, ∀ cid ∈ s.selectedCharacterIds.getD [],
    cid ∈ st.casting.map Character.id

instance (st : ProjectState) : Decidable (SelectedSubsetInv st) := by
  unfold SelectedSubsetInv
  infer_instance

theorem buildNewScenes_sel (lines : List String) :
    ∀ n : Nat, ∀ s ∈ buildNewScenes n lines,
      s.selectedCharacterIds = some [] := by
  induction lines with
  | nil => intro n s hs; simp [buildNewScenes] at hs
  | cons l rest ih =>
    intro n s hs
    rcases List.mem_cons.mp hs with rfl | hs'
    · rfl
    · exact ih (n + 1) s hs'

theorem handleGenerateImage_mem_sel (outcome : Option String) (index : Nat)
    (st : ProjectState) (s : Scene)
    (hs : s ∈ (handleGenerateImage outcome index st).scenes) :
    ∃ s0 ∈ st.scenes, s.selectedCharacterIds = s0.selectedCharacterIds := by
  unfold handleGenerateImage at hs
  by_cases h : index < st.scenes.length
  · rw [if_pos h] at hs
    cases outcome with
    | none =>
      rcases mem_modifyAt hs with hs1 | ⟨b, hb, rfl⟩
      · rcases mem_modifyAt hs1 with hs2 | ⟨b2, hb2, rfl⟩
        · exact ⟨s, hs2, rfl⟩
        · exact ⟨b2, hb2, rfl⟩
      · rcases mem_modifyAt hb with hb1 | ⟨b2, hb2, rfl⟩
        · exact ⟨b, hb1, rfl⟩
        · exact ⟨b2, hb2, rfl⟩
    | some url =>
      rcases mem_modifyAt hs with hs1 | ⟨b, hb, rfl⟩
      · rcases mem_modifyAt hs1 with hs2 | ⟨b2, hb2, rfl⟩
        · exact ⟨s, hs2, rfl⟩
        · exact ⟨b2, hb2, rfl⟩
      · rcases mem_modifyAt hb with hb1 | ⟨b2, hb2, rfl⟩
        · exact ⟨b, hb1, rfl⟩
        · exact ⟨b2, hb2, rfl⟩
  · rw [if_neg h] at hs
    exact ⟨s, hs, rfl⟩

theorem handleGeneratePromptForScene_mem_sel (outcome : Option String)
    (index : Nat) (st : ProjectState) (s : Scene)
    (hs : s ∈ (handleGeneratePromptForScene outcome index st).scenes) :
    ∃ s0 ∈ st.scenes, s.selectedCharacterIds = s0.selectedCharacterIds := by
  unfold handleGeneratePromptForScene at hs
  by_cases h : index < st.scenes.length
  · rw [if_pos h] at hs
    cases outcome with
    | none => exact ⟨s, hs, rfl⟩
    | some p =>
      rcases mem_modifyAt hs with hs1 | ⟨b, hb, rfl⟩
      · exact ⟨s, hs1, rfl⟩
      · exact ⟨b, hb, rfl⟩
  · rw [if_neg h] at hs
    exact ⟨s, hs, rfl⟩

theorem applyOp_preserves_inv (op : ModelOp) (st : ProjectState)
    (hInv : SelectedSubsetInv st) (hval : validOpB st op = true) :
    SelectedSubsetInv (applyOp op st) := by
  cases op with
  | addCharacter id =>
    intro s hs cid hcid
    have h := hInv s hs cid hcid
    simp only [applyOp, handleAddCharacter, List.map_append]
    exact List.mem_append_left _ h
  | updateCharacter id field v =>
    intro s hs cid hcid
    have h := hInv s hs cid hcid
    have hids : (st.casting.map (fun c => if c.id = id then setCharField c field v else c)).map Character.id = st.casting.map Character.id := by
      rw [List.map_map]
      apply List.map_congr_left
      intro c _
      by_cases hc : c.id = id
      · cases field <;> simp [setCharField, hc]
      · simp [hc]
    simp only [applyOp, handleUpdateCharacter]
    rw [hids]
    exact h
  | removeCharacter id =>
    intro s hs cid hcid
    simp only [applyOp, handleRemoveCharacter] at hs ⊢
    rcases List.mem_map.mp hs with ⟨s0, hs0, rfl⟩
    cases hsel : s0.selectedCharacterIds with
    | none =>
      rw [show ({ s0 with selectedCharacterIds := s0.selectedCharacterIds.map (fun sel => sel.filter (fun cId => decide (cId ≠ id))) } : Scene).selectedCharacterIds = s0.selectedCharacterIds.map (fun sel => sel.filter (fun cId => decide (cId ≠ id))) from rfl, hsel] at hcid
      simp at hcid
    | some sel =>
      rw [show ({ s0 with selectedCharacterIds := s0.selectedCharacterIds.map (fun sel => sel.filter (fun cId => decide (cId ≠ id))) } : Scene).selectedCharacterIds = s0.selectedCharacterIds.map (fun sel => sel.filter (fun cId => decide (cId ≠ id))) from rfl, hsel] at hcid
      simp only [Option.map_some', Option.getD_some] at hcid
      obtain ⟨hmem, hne⟩ := List.mem_filter.mp hcid
      have hin : cid ∈ st.casting.map Character.id :=
        hInv s0 hs0 cid (by rw [hsel]; exact hmem)
      rcases List.mem_map.mp hin with ⟨c, hc, rfl⟩
      exact List.mem_map.mpr ⟨c, List.mem_filter.mpr ⟨hc, hne⟩, rfl⟩
  | batchAddScenes text =>
    intro s hs cid hcid
    simp only [applyOp, handleBatchAddScenes] at hs ⊢
    by_cases hg : jsTrim text = ""
    · rw [if_pos hg] at hs ⊢
      exact hInv s hs cid hcid
    · rw [if_neg hg] at hs ⊢
      rcases List.mem_append.mp hs with h1 | h2
      · exact hInv s h1 cid hcid
      · rw [buildNewScenes_sel _ _ s h2] at hcid
        simp at hcid
  | replaceScenes drafts =>
    intro s hs cid hcid
    simp only [applyOp, replaceScenesFromStoryboard] at hs
    rcases List.mem_map.mp hs with ⟨d, _, rfl⟩
    simp at hcid
  | toggleCharacter i cidT =>
    intro s hs cid hcid
    simp only [applyOp, toggleCharacterInScene] at hs ⊢
    rcases mem_modifyAt hs with h | ⟨s0, hs0, rfl⟩
    · exact hInv s h cid hcid
    · unfold toggleSel at hcid
      by_cases hin : cidT ∈ s0.selectedCharacterIds.getD []
      · rw [if_pos hin] at hcid
        simp only [Option.getD_some] at hcid
        exact hInv s0 hs0 cid (List.mem_filter.mp hcid).1
      · rw [if_neg hin] at hcid
        simp only [Option.getD_some] at hcid
        rcases List.mem_append.mp hcid with h1 | h2
        · exact hInv s0 hs0 cid h1
        · rcases List.mem_singleton.mp h2 with rfl
          simpa [validOpB] using hval
  | editVisualPrompt i v =>
    intro s hs cid hcid
    simp only [applyOp, handleEditVisualPrompt] at hs ⊢
    rcases mem_modifyAt hs with h | ⟨s0, hs0, rfl⟩
    · exact hInv s h cid hcid
    · exact hInv s0 hs0 cid hcid
  | deleteScene i =>
    intro s hs cid hcid
    simp only [applyOp, handleDeleteScene] at hs ⊢
    exact hInv s (List.Sublist.subset (List.eraseIdx_sublist _ _) hs) cid hcid
  | generateImage oc i =>
    intro s hs cid hcid
    simp only [applyOp] at hs ⊢
    rw [handleGenerateImage_casting]
    obtain ⟨s0, hs0, hsel⟩ := handleGenerateImage_mem_sel oc i st s hs
    exact hInv s0 hs0 cid (hsel ▸ hcid)
  | generatePromptOp oc i =>
    intro s hs cid hcid
    simp only [applyOp] at hs ⊢
    rw [handleGeneratePromptForScene_casting]
    obtain ⟨s0, hs0, hsel⟩ := handleGeneratePromptForScene_mem_sel oc i st s hs
    exact hInv s0 hs0 cid (hsel ▸ hcid)

theorem applyOps_preserves_inv :
    ∀ (ops : List ModelOp) (st : ProjectState), SelectedSubsetInv st →
      validSeqB st ops = true → SelectedSubsetInv (applyOps ops st) := by
  intro ops
  induction ops with
  | nil => intro st h _; exact h
  | cons op ops ih =>
    intro st h hval
    simp only [validSeqB, Bool.and_eq_true] at hval
    exact ih _ (applyOp_preserves_inv op st h hval.1) hval.2

/-- Claim C1 amended: every sequence of Project Model operations - with
character toggling invoked, as its only call site does, with an id of the
current cast - preserves the invariant that each scene selection set is a
subset of the current cast ids; in particular, removing a character by id
leaves no scene selection containing that id.  The import path, by contrast,
does not preserve the invariant (see the import counterexample). -/
theorem c1_amended_model_ops_preserve_selection_subset :
    (∀ (ops : List ModelOp) (st : ProjectState), SelectedSubsetInv st →
        validSeqB st ops = true → SelectedSubsetInv (applyOps ops st))
    ∧ (∀ (st : ProjectState) (id : String),
        ∀ s ∈ (handleRemoveCharacter id st).scenes,
          ∀ cid ∈ s.selectedCharacterIds.getD [], cid ≠ id) := by
  refine ⟨applyOps_preserves_inv, ?_⟩
  intro st id s hs cid hcid
  simp only [handleRemoveCharacter] at hs
  rcases List.mem_map.mp hs with ⟨s0, _, rfl⟩
  cases hsel : s0.selectedCharacterIds with
  | none =>
    rw [show ({ s0 with selectedCharacterIds := s0.selectedCharacterIds.map (fun sel => sel.filter (fun cId => decide (cId ≠ id))) } : Scene).selectedCharacterIds = s0.selectedCharacterIds.map (fun sel => sel.filter (fun cId => decide (cId ≠ id))) from rfl, hsel] at hcid
    simp at hcid
  | some sel =>
    rw [show ({ s0 with selectedCharacterIds := s0.selectedCharacterIds.map (fun sel => sel.filter (fun cId => decide (cId ≠ id))) } : Scene).selectedCharacterIds = s0.selectedCharacterIds.map (fun sel => sel.filter (fun cId => decide (cId ≠ id))) from rfl, hsel] at hcid
    simp only [Option.map_some', Option.getD_some] at hcid
    have := (List.mem_filter.mp hcid).2
    simpa using this

/-- The initial App state: the useState defaults. -/
def initialState : ProjectState :=
  { style := "dark fantasy ink illustration como Junji Ito", story := "",
    casting := [], scenes := [] }

/-- A scene selecting the id "ghost", which no cast list below contains. -/
def c1GhostScene : Scene :=
  { sceneNumber := 1, textExcerpt := "x", characters := "",
    selectedCharacterIds := some ["ghost"], visualPrompt := "",
    imageUrl := none, isGeneratingImage := none }

/-- A parseable descriptor with an empty cast whose only scene selects the
unknown id "ghost". -/
def c1BadDescriptor : Json :=
  Json.obj [("casting", Json.arr []), ("scenes", Json.arr [encodeScene c1GhostScene])]

/-- The project state after importing the bad descriptor into the initial
state. -/
def c1BrokenState : ProjectState :=
  { style := "dark fantasy ink illustration como Junji Ito", story := "",
    casting := [], scenes := [c1GhostScene] }

/-- Claim C1 counterexample: the initial state satisfies the invariant, and
importing a parseable descriptor whose scene selects an id absent from the
cast succeeds without ImportError and produces a state that violates the
invariant - so the invariant does not hold across the import path. -/
theorem c1_counterexample_import_breaks_selection_subset :
    SelectedSubsetInv initialState
    ∧ handleImport (some c1BadDescriptor) (rawOfState initialState)
        = (rawOfState c1BrokenState, false)
    ∧ decodeRawProject (rawOfState c1BrokenState) = some c1BrokenState
    ∧ ¬ SelectedSubsetInv c1BrokenState :=
  ⟨by decide, rfl, rfl, by decide⟩

/-- States exercising the C1 witness. -/
def c1WitnessState : ProjectState :=
  { style := "s", story := "",
    casting := [{ id := "a", name := "", prompt := "", referenceImage := none },
                { id := "b", name := "", prompt := "", referenceImage := none }],
    scenes := [{ sceneNumber := 1, textExcerpt := "e", characters := "",
                 selectedCharacterIds := some ["a", "b"], visualPrompt := "",
                 imageUrl := none, isGeneratingImage := none }] }

/-- The scene of `c1WitnessState` after character "a" is removed. -/
def c1RemovedScene : Scene :=
  { sceneNumber := 1, textExcerpt := "e", characters := "",
    selectedCharacterIds := some ["b"], visualPrompt := "",
    imageUrl := none, isGeneratingImage := none }

theorem c1_amended_model_ops_preserve_selection_subset_witness :
    SelectedSubsetInv (applyOps [ModelOp.addCharacter "c", ModelOp.toggleCharacter 0 "c", ModelOp.removeCharacter "a"] c1WitnessState)
    ∧ ("b" : String) ≠ "a" := by
  obtain ⟨h1, h2⟩ := c1_amended_model_ops_preserve_selection_subset
  refine ⟨h1 _ c1WitnessState (by decide) (by decide), ?_⟩
  exact h2 c1WitnessState "a" c1RemovedScene (by decide) "b" (by decide)
